import Mathlib

/-!
Shallow embedding of the watch-queue-worker reconciliation controller in
`src/utils/watch.go` (package `utils`): the data model (`v1.Event`, the
rate-limiting work queue), the business logic `syncToStdout`, the retry
policy `handleErr`, the worker step `processNextItem`, and the three
informer event handlers (`AddFunc`, `UpdateFunc`, `DeleteFunc`) from
`Watch`.  Machine behaviour (stdout prints, klog lines, file-sink appends,
`runtime.HandleError` reports, panics of failed Go type assertions) is made
explicit in the return types.
-/

/-- Mirror of `v1.EventSource` (fields `Component`, `Host`); `reflect.DeepEqual`
on it is structural equality. -/
structure EventSource where
  Component : String
  Host : String
deriving DecidableEq, Repr

/-- Mirror of the fields of `v1.Event` that `watch.go` reads: `Name`,
`Namespace` (from `ObjectMeta`), `Kind` (from `TypeMeta`), `Message`,
`Source`, `Reason`. -/
structure V1Event where
  Name : String
  Namespace : String
  Kind : String
  Message : String
  Source : EventSource
  Reason : String
deriving DecidableEq, Repr

/-- An `interface{}` value delivered to an event handler: either a typed
`*v1.Event`, a `cache.DeletedFinalStateUnknown` tombstone (carrying the key
the object had while present and possibly the last known object), or some
other object with no `ObjectMeta`. -/
inductive KObject where
  | evt (e : V1Event)
  | tombstone (key : String) (inner : Option V1Event)
  | other
deriving DecidableEq, Repr

/-- The Go type assertion `obj.(*v1.Event)`: yields the event, or panics
(`none`) when the dynamic type is not `*v1.Event` — e.g. on a
`DeletedFinalStateUnknown` tombstone. -/
def castToEvent : KObject → Option V1Event
  | .evt e => some e
  | _ => none

/-- Key of an object per `cache.MetaNamespaceKeyFunc`: `namespace + "/" + name`,
or just `name` when the namespace is empty. -/
def eventKey (e : V1Event) : String :=
  if e.Namespace = "" then e.Name else e.Namespace ++ "/" ++ e.Name

/-- `cache.MetaNamespaceKeyFunc`: succeeds on objects with `ObjectMeta`
(a `*v1.Event`), errors on objects without accessible metadata (a tombstone
wrapper or an unrelated type). -/
def metaNamespaceKeyFunc : KObject → Except String String
  | .evt e => .ok (eventKey e)
  | .tombstone _ _ => .error "object has no meta"
  | .other => .error "object has no meta"

/-- `cache.DeletionHandlingMetaNamespaceKeyFunc`: on a
`DeletedFinalStateUnknown` tombstone returns its stored key, otherwise
defers to `MetaNamespaceKeyFunc`. -/
def deletionHandlingMetaNamespaceKeyFunc : KObject → Except String String
  | .tombstone k _ => .ok k
  | o => metaNamespaceKeyFunc o

/-- State of the `workqueue.RateLimitingInterface` built by
`workqueue.NewRateLimitingQueue(workqueue.DefaultControllerRateLimiter())`:
the pending keys in FIFO order plus the per-key failure counters kept by the
item-exponential-failure rate limiter (the counter behind `NumRequeues`). -/
structure RLQueue where
  items : List String
  failures : List (String × Nat)
deriving DecidableEq, Repr

/-- Failure counter recorded for a key, `0` when the key has no entry. -/
def lookupFailure : List (String × Nat) → String → Nat
  | [], _ => 0
  | (k', n) :: rest, k => if k' = k then n else lookupFailure rest k

/-- Increment the failure counter of a key (what `rateLimiter.When(item)`
does inside `AddRateLimited`). -/
def bumpFailure : List (String × Nat) → String → List (String × Nat)
  | [], k => [(k, 1)]
  | (k', n) :: rest, k =>
    if k' = k then (k', n + 1) :: rest else (k', n) :: bumpFailure rest k

/-- Drop the failure entry of a key (what `rateLimiter.Forget(item)` does:
`delete` on the failure map removes the key entirely). -/
def dropFailure (l : List (String × Nat)) (k : String) : List (String × Nat) :=
  l.filter (fun p => p.1 ≠ k)

/-- `queue.NumRequeues(key)`: the current retry counter of the key. -/
def RLQueue.numRequeues (q : RLQueue) (k : String) : Nat :=
  lookupFailure q.failures k

/-- `queue.Add(key)`: deduplicating add — a key already pending is not
appended again. -/
def RLQueue.add (q : RLQueue) (k : String) : RLQueue :=
  if k ∈ q.items then q else { q with items := q.items ++ [k] }

/-- `queue.Forget(key)`: reset the retry counter of the key to zero; the pending
list is untouched. -/
def RLQueue.forget (q : RLQueue) (k : String) : RLQueue :=
  { q with failures := dropFailure q.failures k }

/-- `queue.AddRateLimited(key)`: increment the retry counter of the key and
re-enqueue it (after a backoff delay, which this untimed model elides). -/
def RLQueue.addRateLimited (q : RLQueue) (k : String) : RLQueue :=
  RLQueue.add { q with failures := bumpFailure q.failures k } k

/-- Outcome of one cache lookup `indexer.GetByKey(key)`: the triple
`(obj, exists, err)` collapsed into its three meaningful shapes. -/
inductive LookupResult where
  | found (e : V1Event)
  | notFound
  | lookupError (msg : String)
deriving DecidableEq, Repr

/-- The line `msg` built in `syncToStdout`:
`fmt.Sprintf("%s: %s/%s/%s/%s \n", evt.Name, evt.Namespace, evt.Kind, evt.Name, evt.Message)`.
Note the space before the newline, exactly as in the format string. -/
def syncMsg (e : V1Event) : String :=
  e.Name ++ ": " ++ e.Namespace ++ "/" ++ e.Kind ++ "/" ++ e.Name ++ "/" ++
    e.Message ++ " \n"

/-- Modelled from the spec: the sink-line format the spec states for C6,
`<name>: <namespace>/<kind>/<name>/<message>\n`, with the newline directly
after the message.  Kept separate from `syncMsg` (the format of the source) so
the two can be compared. -/
def specSinkLine (e : V1Event) : String :=
  e.Name ++ ": " ++ e.Namespace ++ "/" ++ e.Kind ++ "/" ++ e.Name ++ "/" ++
    e.Message ++ "\n"

/-- Everything one call of `syncToStdout` produces: `fmt.Printf` output,
klog output, lines successfully appended to the file sink, and the returned
error (`none` = nil). -/
structure SyncResult where
  stdout : List String
  logs : List String
  fileWrites : List String
  ret : Option String
deriving DecidableEq, Repr

/-- `Controller.syncToStdout`, as a function of the cache-lookup outcome for
the key, the outcome of the `io.WriteString` sink write (`none` = the write
succeeds, `some e` = it fails with error `e`), and the key.  Faithful to the
source: a lookup error is logged and returned; a missing key prints the
deletion message and returns nil (the sink write for deletes is commented
out in the source); an existing object prints and appends `syncMsg`, and a
failed write is only printed, the function still returning nil. -/
def syncToStdout (lookup : LookupResult) (writeErr : Option String)
    (key : String) : SyncResult :=
  match lookup with
  | .lookupError m =>
    { stdout := []
      logs := ["Fetching object with key " ++ key ++ " from store failed with " ++ m]
      fileWrites := []
      ret := some m }
  | .notFound =>
    { stdout := ["Pod " ++ key ++ " does not exist anymore\n"]
      logs := []
      fileWrites := []
      ret := none }
  | .found e =>
    match writeErr with
    | none =>
      { stdout := [syncMsg e]
        logs := []
        fileWrites := [syncMsg e]
        ret := none }
    | some werr =>
      { stdout := [syncMsg e, "write file error " ++ werr]
        logs := []
        fileWrites := []
        ret := none }

/-- `Controller.handleErr`: on nil error `Forget(key)`; on an error with
`NumRequeues(key) < 5` log and `AddRateLimited(key)`; otherwise `Forget(key)`,
report once via `runtime.HandleError` and log the drop.  Returns the new
queue state and the list of errors reported to the process-wide sink. -/
def handleErr (q : RLQueue) (err : Option String) (key : String) :
    RLQueue × List String :=
  match err with
  | none => (q.forget key, [])
  | some e =>
    if q.numRequeues key < 5 then
      (q.addRateLimited key, [])
    else
      (q.forget key, [e])

/-- Observable state of one sequential trace of the controller: the queue,
the keys delivered to `syncToStdout` in order, and the errors reported to
`runtime.HandleError`. -/
structure SimState where
  queue : RLQueue
  delivered : List String
  reports : List String
deriving DecidableEq, Repr

/-- `Controller.processNextItem` for one worker, parameterised by the cache
state the lookup will see (`lookup`) and the sink-write outcome: `Get` pops
the next key (blocking on an empty queue is modelled as a no-op step),
`syncToStdout` runs, `handleErr` classifies its result, and `Done` releases
the key. -/
def processNextItem (lookup : LookupResult) (writeErr : Option String)
    (s : SimState) : SimState :=
  match s.queue.items with
  | [] => s
  | key :: rest =>
    let afterGet : RLQueue := { s.queue with items := rest }
    let out := syncToStdout lookup writeErr key
    let step := handleErr afterGet out.ret key
    { queue := step.1
      delivered := s.delivered ++ [key]
      reports := s.reports ++ step.2 }

/-- One externally scheduled action in a trace: a worker iteration (with the
cache state it observes), or an event-handler enqueue of a key. -/
inductive SimOp where
  | deliver (lookup : LookupResult)
  | enqueue (k : String)
deriving Repr

/-- Run a list of actions from a state (sink writes succeed throughout). -/
def runOps (s : SimState) : List SimOp → SimState
  | [] => s
  | .deliver lk :: rest => runOps (processNextItem lk none s) rest
  | .enqueue k :: rest =>
    runOps { s with queue := s.queue.add k } rest

/-- Initial trace state: the key just enqueued by an event handler, fresh
retry history, nothing delivered or reported. -/
def initSim (k : String) : SimState :=
  { queue := { items := [k], failures := [] }, delivered := [], reports := [] }

/-- The `AddFunc` closure in `Watch`: cast `obj.(*v1.Event)` (panic,
modelled as `none`, when the object is not a `*v1.Event`), compute the key
with `cache.MetaNamespaceKeyFunc`, and `queue.Add` it only when the key
function returned nil error. -/
def addFunc (obj : KObject) (q : RLQueue) : Option RLQueue :=
  match castToEvent obj with
  | none => none
  | some _ =>
    match metaNamespaceKeyFunc obj with
    | .ok key => some (q.add key)
    | .error _ => some q

/-- The `UpdateFunc` closure in `Watch`: cast both arguments (panic when
either is not a `*v1.Event`); when `!reflect.DeepEqual(newEvt.Source,
oldEvt.Source) && oldEvt.Reason != newEvt.Reason`, compute the key of the
OLD object with `cache.MetaNamespaceKeyFunc` and `queue.Add` it on nil
error; otherwise do nothing. -/
def updateFunc (old new : KObject) (q : RLQueue) : Option RLQueue :=
  match castToEvent old, castToEvent new with
  | some oldEvt, some newEvt =>
    if newEvt.Source ≠ oldEvt.Source ∧ oldEvt.Reason ≠ newEvt.Reason then
      match metaNamespaceKeyFunc old with
      | .ok key => some (q.add key)
      | .error _ => some q
    else
      some q
  | _, _ => none

/-- The `DeleteFunc` closure in `Watch`: first the unchecked cast
`obj.(*v1.Event)` (panic, modelled as `none`, when the object is a
tombstone or otherwise not a `*v1.Event`), then the key via
`cache.DeletionHandlingMetaNamespaceKeyFunc`, then `queue.Add` on nil
error. -/
def deleteFunc (obj : KObject) (q : RLQueue) : Option RLQueue :=
  match castToEvent obj with
  | none => none
  | some _ =>
    match deletionHandlingMetaNamespaceKeyFunc obj with
    | .ok key => some (q.add key)
    | .error _ => some q

/-- An empty queue, used by concrete witnesses. -/
def emptyQueue : RLQueue := { items := [], failures := [] }

/-- A concrete event used by witnesses and counterexamples. -/
def sampleEvent : V1Event :=
  { Name := "foo", Namespace := "ns", Kind := "Event", Message := "msg"
    Source := { Component := "kubelet", Host := "node1" }, Reason := "Started" }

/-- Forgetting a key never touches the pending list: no requeue happens on
the `Forget` path of `handleErr`. -/
theorem forget_items (q : RLQueue) (k : String) :
    (q.forget k).items = q.items := rfl

/-- Looking up a key after its failure entries are dropped yields the
default counter `0`. -/
theorem lookupFailure_dropFailure (l : List (String × Nat)) (k : String) :
    lookupFailure (dropFailure l k) k = 0 := by
  induction l with
  | nil => rfl
  | cons p rest ih =>
    by_cases h : p.1 = k
    · simpa [dropFailure, List.filter, h] using ih
    · simpa [dropFailure, List.filter, h, lookupFailure] using ih

/-- Forgetting a key resets its retry counter to zero. -/
theorem forget_numRequeues (q : RLQueue) (k : String) :
    (q.forget k).numRequeues k = 0 :=
  lookupFailure_dropFailure q.failures k

/-- Bumping the failure entry of a key increments the looked-up counter. -/
theorem lookupFailure_bumpFailure (l : List (String × Nat)) (k : String) :
    lookupFailure (bumpFailure l k) k = lookupFailure l k + 1 := by
  induction l with
  | nil => simp [bumpFailure, lookupFailure]
  | cons p rest ih =>
    by_cases h : p.1 = k
    · simp [bumpFailure, lookupFailure, h]
    · simpa [bumpFailure, lookupFailure, h] using ih

/-- `AddRateLimited` increments the retry counter of the key by exactly one. -/
theorem addRateLimited_numRequeues (q : RLQueue) (k : String) :
    (q.addRateLimited k).numRequeues k = q.numRequeues k + 1 := by
  unfold RLQueue.addRateLimited RLQueue.add RLQueue.numRequeues
  split <;> exact lookupFailure_bumpFailure q.failures k

/-- A second concrete event, differing from `sampleEvent` in name, source
and reason. -/
def sampleEvent2 : V1Event :=
  { Name := "bar", Namespace := "ns", Kind := "Event", Message := "other"
    Source := { Component := "scheduler", Host := "node2" }, Reason := "Killing" }

/-- Claim C1: while `NumRequeues(key) < 5`, a `Sync` failure requeues the key
via `AddRateLimited` and reports nothing; on the failure that sees the
counter at 5, `handleErr` calls `Forget(key)`, reports the error exactly
once, and does not requeue; an empty queue delivers nothing further; hence a
key whose lookup always errors is delivered exactly 6 times across 7 worker
iterations, reported once, and the queue ends empty. -/
theorem C1_retry_ceiling :
    (∀ (q : RLQueue) (k e : String), q.numRequeues k < 5 →
        handleErr q (some e) k = (q.addRateLimited k, [])) ∧
    (∀ (q : RLQueue) (k e : String), q.numRequeues k = 5 →
        handleErr q (some e) k = (q.forget k, [e]) ∧
        (q.forget k).items = q.items) ∧
    (∀ (s : SimState) (lk : LookupResult) (w : Option String),
        s.queue.items = [] → processNextItem lk w s = s) ∧
    (∀ (k e : String),
        (runOps (initSim k)
            (List.replicate 7 (SimOp.deliver (.lookupError e)))).delivered
          = List.replicate 6 k ∧
        (runOps (initSim k)
            (List.replicate 7 (SimOp.deliver (.lookupError e)))).reports = [e] ∧
        (runOps (initSim k)
            (List.replicate 7 (SimOp.deliver (.lookupError e)))).queue.items
          = []) := by
  refine ⟨?_, ?_, ?_, ?_⟩
  · intro q k e h
    simp [handleErr, h]
  · intro q k e h
    refine ⟨?_, rfl⟩
    simp [handleErr, h]
  · intro s lk w h
    simp [processNextItem, h]
  · intro k e
    simp [runOps, processNextItem, handleErr, syncToStdout, initSim,
      RLQueue.numRequeues, RLQueue.addRateLimited, RLQueue.add, RLQueue.forget,
      lookupFailure, bumpFailure, dropFailure, List.filter, List.replicate]

/-- Witness for C1 at concrete inputs: a key with counter 2 is requeued
without a report, a key with counter 5 is forgotten and reported once, and a
worker step on an empty queue changes nothing. -/
theorem C1_retry_ceiling_witness :
    (handleErr ⟨["a"], [("a", 2)]⟩ (some "boom") "a"
        = (RLQueue.addRateLimited ⟨["a"], [("a", 2)]⟩ "a", [])) ∧
    (handleErr ⟨["b"], [("b", 5)]⟩ (some "boom") "b"
        = (RLQueue.forget ⟨["b"], [("b", 5)]⟩ "b", ["boom"])) ∧
    processNextItem LookupResult.notFound none
        ⟨emptyQueue, [], []⟩ = ⟨emptyQueue, [], []⟩ :=
  ⟨C1_retry_ceiling.1 ⟨["a"], [("a", 2)]⟩ "a" "boom" (by decide),
   (C1_retry_ceiling.2.1 ⟨["b"], [("b", 5)]⟩ "b" "boom" (by decide)).1,
   C1_retry_ceiling.2.2.1 ⟨emptyQueue, [], []⟩ LookupResult.notFound none rfl⟩

/-- Claim C2: for two event objects, `UpdateFunc` enqueues the key exactly
when the filtering predicate holds — the new `Source` differs from the old
one AND the old `Reason` differs from the new one; when the tracked fields
are unchanged the queue is returned unchanged (no enqueue). -/
theorem C2_update_filtering :
    (∀ (old new : V1Event) (q : RLQueue),
        updateFunc (.evt old) (.evt new) q =
          some (if new.Source ≠ old.Source ∧ old.Reason ≠ new.Reason
                then q.add (eventKey old) else q)) ∧
    (∀ (old new : V1Event) (q : RLQueue),
        old.Source = new.Source → old.Reason = new.Reason →
        updateFunc (.evt old) (.evt new) q = some q) := by
  constructor
  · intro old new q
    by_cases h : new.Source ≠ old.Source ∧ old.Reason ≠ new.Reason
    · simp [updateFunc, castToEvent, metaNamespaceKeyFunc, h]
    · simp [updateFunc, castToEvent, h]
  · intro old new q h1 h2
    simp [updateFunc, castToEvent, h1, h2]

/-- Witness for C2: an update carrying an unchanged event enqueues nothing. -/
theorem C2_update_filtering_witness :
    updateFunc (.evt sampleEvent) (.evt sampleEvent) emptyQueue
      = some emptyQueue :=
  C2_update_filtering.2 sampleEvent sampleEvent emptyQueue rfl rfl

/-- Claim C3: when the cache lookup finds the object but the sink write
fails, `syncToStdout` still returns nil — the write error is only printed,
nothing is appended to the sink, and the nil result makes `handleErr` take
the `Forget` path, so the write is never retried. -/
theorem C3_write_error_not_retried :
    ∀ (e : V1Event) (k w : String) (q : RLQueue),
      (syncToStdout (.found e) (some w) k).ret = none ∧
      (syncToStdout (.found e) (some w) k).fileWrites = [] ∧
      (syncToStdout (.found e) (some w) k).stdout
        = [syncMsg e, "write file error " ++ w] ∧
      handleErr q ((syncToStdout (.found e) (some w) k).ret) k
        = (q.forget k, []) ∧
      (q.forget k).items = q.items :=
  fun _ _ _ _ => ⟨rfl, rfl, rfl, rfl, rfl⟩

/-- Claim C4: a nil `Sync` result makes `handleErr` call `Forget`, which
zeroes the retry counter and requeues nothing; hence two failures, a
success, and two more failures never reach the drop branch — after the
success the counter restarts at 0 and ends at 2 with no report. -/
theorem C4_forget_resets :
    (∀ (q : RLQueue) (k : String),
        handleErr q none k = (q.forget k, []) ∧
        (q.forget k).numRequeues k = 0 ∧
        (q.forget k).items = q.items) ∧
    (∀ (k e1 e2 e3 e4 : String) (ev : V1Event),
        (runOps (initSim k)
            [.deliver (.lookupError e1), .deliver (.lookupError e2),
             .deliver (.found ev)]).queue.numRequeues k = 0 ∧
        (runOps (initSim k)
            [.deliver (.lookupError e1), .deliver (.lookupError e2),
             .deliver (.found ev)]).reports = [] ∧
        (runOps (initSim k)
            [.deliver (.lookupError e1), .deliver (.lookupError e2),
             .deliver (.found ev), .enqueue k, .deliver (.lookupError e3),
             .deliver (.lookupError e4)]).queue.numRequeues k = 2 ∧
        (runOps (initSim k)
            [.deliver (.lookupError e1), .deliver (.lookupError e2),
             .deliver (.found ev), .enqueue k, .deliver (.lookupError e3),
             .deliver (.lookupError e4)]).reports = []) := by
  constructor
  · intro q k
    exact ⟨rfl, forget_numRequeues q k, rfl⟩
  · intro k e1 e2 e3 e4 ev
    refine ⟨?_, ?_, ?_, ?_⟩ <;>
      simp [runOps, processNextItem, handleErr, syncToStdout, initSim,
        RLQueue.numRequeues, RLQueue.addRateLimited, RLQueue.add,
        RLQueue.forget, lookupFailure, bumpFailure, dropFailure, List.filter]

/-- Claim C5: for a key absent from the cache, `syncToStdout` prints the
deletion message, appends nothing to the sink, and returns nil, so
`handleErr` forgets the key instead of retrying it. -/
theorem C5_absent_key_is_final :
    ∀ (k : String) (w : Option String) (q : RLQueue),
      (syncToStdout .notFound w k).stdout
        = ["Pod " ++ k ++ " does not exist anymore\n"] ∧
      (syncToStdout .notFound w k).fileWrites = [] ∧
      (syncToStdout .notFound w k).ret = none ∧
      handleErr q ((syncToStdout .notFound w k).ret) k = (q.forget k, []) :=
  fun _ _ _ => ⟨rfl, rfl, rfl, rfl⟩

/-- Counterexample to claim C6 as stated: the line appended for a concrete
cached event is not the spec format `<name>: <namespace>/<kind>/<name>/<message>\n`
— the source writes a space before the newline. -/
theorem C6_counterexample :
    (syncToStdout (.found sampleEvent) none "ns/foo").fileWrites
      ≠ [specSinkLine sampleEvent] := by
  decide

/-- Claim C6 (amended): on every successful sync of an existing cached
object, exactly one line is appended to the sink, formatted as
`<name>: <namespace>/<kind>/<name>/<message> \n` — with a space before the
newline — from the fields of the cached snapshot. -/
theorem C6_sink_line :
    ∀ (e : V1Event) (k : String),
      (syncToStdout (.found e) none k).fileWrites = [syncMsg e] ∧
      syncMsg e = e.Name ++ ": " ++ e.Namespace ++ "/" ++ e.Kind ++ "/" ++
        e.Name ++ "/" ++ e.Message ++ " \n" :=
  fun _ _ => ⟨rfl, rfl⟩

/-- Claim C7: a cache lookup error makes `syncToStdout` return that error
(writing nothing to the sink), and the returned error enters the same
bounded-retry policy: below the ceiling `handleErr` requeues the key via
`AddRateLimited`. -/
theorem C7_lookup_error_is_sync_failure :
    ∀ (k m : String) (w : Option String),
      (syncToStdout (.lookupError m) w k).ret = some m ∧
      (syncToStdout (.lookupError m) w k).fileWrites = [] ∧
      ∀ (q : RLQueue), q.numRequeues k < 5 →
        handleErr q ((syncToStdout (.lookupError m) w k).ret) k
          = (q.addRateLimited k, []) := by
  intro k m w
  refine ⟨rfl, rfl, ?_⟩
  intro q h
  simp [syncToStdout, handleErr, h]

/-- Witness for C7: a concrete lookup error on a fresh queue is requeued. -/
theorem C7_lookup_error_witness :
    handleErr emptyQueue
        ((syncToStdout (.lookupError "cache down") none "ns/foo").ret) "ns/foo"
      = (emptyQueue.addRateLimited "ns/foo", []) :=
  (C7_lookup_error_is_sync_failure "ns/foo" "cache down" none).2.2
    emptyQueue (by decide)

/-- Claim C8, evaluated at the failing input: the deletion-tolerant key
extractor would resolve the tombstone for `ns/foo` to exactly that key, but
`DeleteFunc` performs the unchecked cast `obj.(*v1.Event)` first, so every
tombstone delivery panics (modelled as `none`) and nothing is enqueued; a
delete carrying a plain event does enqueue its key. -/
theorem C8_tombstone_delete_panics :
    deletionHandlingMetaNamespaceKeyFunc (KObject.tombstone "ns/foo" none)
      = Except.ok "ns/foo" ∧
    deleteFunc (KObject.tombstone "ns/foo" none) emptyQueue = none ∧
    (∀ (k : String) (inner : Option V1Event) (q : RLQueue),
        deleteFunc (KObject.tombstone k inner) q = none) ∧
    (∀ (e : V1Event) (q : RLQueue),
        deleteFunc (KObject.evt e) q = some (q.add (eventKey e))) :=
  ⟨rfl, rfl, fun _ _ _ => rfl, fun _ _ => rfl⟩

/-- Claim C9: when the update filter passes, the enqueued key is computed
from the OLD object; and there are updates passing the filter whose old and
new keys differ, so the two coincide only when the key is stable across the
object lifetime. -/
theorem C9_key_from_old_object :
    (∀ (old new : V1Event) (q : RLQueue),
        new.Source ≠ old.Source ∧ old.Reason ≠ new.Reason →
        updateFunc (.evt old) (.evt new) q = some (q.add (eventKey old))) ∧
    (∃ old new : V1Event,
        (new.Source ≠ old.Source ∧ old.Reason ≠ new.Reason) ∧
        eventKey old ≠ eventKey new) := by
  constructor
  · intro old new q h
    simp [updateFunc, castToEvent, metaNamespaceKeyFunc, h]
  · exact ⟨sampleEvent, sampleEvent2, by decide⟩

/-- Witness for C9: a concrete filtered update enqueues the key of the old
event even though the new event has a different key. -/
theorem C9_key_from_old_object_witness :
    updateFunc (.evt sampleEvent) (.evt sampleEvent2) emptyQueue
      = some (emptyQueue.add (eventKey sampleEvent)) :=
  C9_key_from_old_object.1 sampleEvent sampleEvent2 emptyQueue (by decide)

/-- Counterexample to claim C10 as stated: on a delete notification carrying
an object that is not a `*v1.Event`, the key extractor does return an error,
but the handler is not a silent discard that leaves the queue unchanged — it
panics at the unchecked type assertion (modelled as `none`) before reaching
the extraction branch. -/
theorem C10_counterexample :
    deletionHandlingMetaNamespaceKeyFunc KObject.other
      = Except.error "object has no meta" ∧
    deleteFunc KObject.other emptyQueue = none ∧
    deleteFunc KObject.other emptyQueue ≠ some emptyQueue :=
  ⟨rfl, rfl, by decide⟩

/-- Claim C10 (amended): the handlers never log or report a failed key
extraction, but no notification is ever silently discarded by the
`err == nil` guard either — any object on which key extraction errors also
fails the preceding unchecked `*v1.Event` type assertion, so the handler
panics before extraction, and on objects that pass the assertion (typed
events) key extraction always succeeds. -/
theorem C10_extraction_error_unreachable :
    (∀ (obj : KObject) (q : RLQueue) (m : String),
        metaNamespaceKeyFunc obj = .error m → addFunc obj q = none) ∧
    (∀ (obj : KObject) (q : RLQueue) (m : String),
        deletionHandlingMetaNamespaceKeyFunc obj = .error m →
        deleteFunc obj q = none) ∧
    (∀ (old new : KObject) (q : RLQueue) (m : String),
        metaNamespaceKeyFunc old = .error m → updateFunc old new q = none) ∧
    (∀ (e : V1Event), metaNamespaceKeyFunc (.evt e) = .ok (eventKey e)) := by
  refine ⟨?_, ?_, ?_, fun _ => rfl⟩
  · intro obj q m h
    cases obj with
    | evt e => simp [metaNamespaceKeyFunc] at h
    | tombstone k inner => rfl
    | other => rfl
  · intro obj q m h
    cases obj with
    | evt e => simp [deletionHandlingMetaNamespaceKeyFunc, metaNamespaceKeyFunc] at h
    | tombstone k inner => rfl
    | other => rfl
  · intro old new q m h
    cases old with
    | evt e => simp [metaNamespaceKeyFunc] at h
    | tombstone k inner => cases new <;> rfl
    | other => cases new <;> rfl

/-- Witness for C10 (amended): a non-event object errors under key
extraction and its add-handler invocation panics. -/
theorem C10_extraction_error_witness :
    addFunc KObject.other emptyQueue = none :=
  C10_extraction_error_unreachable.1 KObject.other emptyQueue
    "object has no meta" rfl
